import Mathlib

/-!
Verification of the Meme-Coin order-flow backend.

Shallow embedding of the Python sources under `src/backend/`:
* `signals.py`   — `SignalEngine` (score components, classification, zones,
  suggestions), embedded over `ℚ`.
* `analyzer.py`  — `OrderFlowAnalyzer` alert emission and dedup.
* `bingx_client.py` — adapter-level `OrderBook` derived metrics.
* `server_v2.py` — `CoinWatcher` event handling and the watch endpoints.

Conventions: Python floats are modelled as rationals; division is total with
`x / 0 = 0` (every theorem that depends on a quotient carries the positivity
facts the source guarantees); `math.exp` is transcendental and is abstracted
as an explicit function parameter `wexp`, about which theorems only assume
nonnegativity (true of the real exponential).  Formatted message strings are
presentation only and are modelled as tag values.
-/

/-- Aggressor side of a trade / side of a book level ("buy"/"sell" strings in
the source). -/
inductive Side where
  | buy
  | sell
deriving DecidableEq, Repr

/-- `Signal` enum from `signals.py`. -/
inductive Signal where
  | STRONG_BUY
  | BUY
  | NEUTRAL
  | SELL
  | STRONG_SELL
deriving DecidableEq, Repr

/-- `OrderBookLevel` dataclass (`signals.py` / `bingx_client.py`). -/
structure OrderBookLevel where
  price : ℚ
  quantity : ℚ
deriving DecidableEq, Repr

/-- `OrderBookLevel.value_usd` property: `price * quantity`. -/
def OrderBookLevel.value_usd (l : OrderBookLevel) : ℚ :=
  l.price * l.quantity

/-- Side of a liquidity zone ("bid"/"ask" strings in the source). -/
inductive ZoneSide where
  | bid
  | ask
deriving DecidableEq, Repr

/-- `LiquidityZone` dataclass from `signals.py`. -/
structure LiquidityZone where
  price : ℚ
  total_volume_usd : ℚ
  side : ZoneSide
  distance_pct : ℚ
  order_count : ℕ
  is_major : Bool
deriving DecidableEq, Repr

/-- Suggestion action ("LONG"/"SHORT"/"WAIT" strings in the source). -/
inductive SuggestAction where
  | LONG
  | SHORT
  | WAIT
deriving DecidableEq, Repr

/-- Suggestion mode ("scalp"/"reversal" strings in the source). -/
inductive SuggestMode where
  | scalp
  | reversal
deriving DecidableEq, Repr

/-- `TradeSuggestion` dataclass from `signals.py` (the formatted `reason`
string is presentation only and not modelled). -/
structure TradeSuggestion where
  action : SuggestAction
  mode : SuggestMode
  entry_price : ℚ
  target_price : ℚ
  stop_price : ℚ
  confidence : ℚ
deriving DecidableEq, Repr

/-- Tags for the human-readable reason strings produced by
`SignalEngine._generate_reasons` and by the zone notes appended in
`SignalEngine.analyze`; the interpolated text is presentation only. -/
inductive Reason where
  | insufficientData
  | strongBidImbalance
  | strongAskImbalance
  | largeBidWall
  | largeAskWall
  | bullishMomentum
  | bearishMomentum
  | wideSpread
  | heavyBuyFlow
  | heavySellFlow
  | noStrongSignals
  | majorSupportNote
  | majorResistanceNote
deriving DecidableEq, Repr

/-- `SignalResult` dataclass from `signals.py`; the source field
`imbalance_ratio` is stored here as `imbalance_quot`. -/
structure SignalResult where
  signal : Signal
  confidence : ℚ
  score : ℚ
  imbalance_score : ℚ := 0
  weighted_pressure_score : ℚ := 0
  wall_score : ℚ := 0
  spread_score : ℚ := 0
  flow_score : ℚ := 0
  momentum_score : ℚ := 0
  bid_volume : ℚ := 0
  ask_volume : ℚ := 0
  imbalance_quot : ℚ := 1
  spread_bps : ℚ := 0
  largest_bid_usd : ℚ := 0
  largest_ask_usd : ℚ := 0
  mid_price : ℚ := 0
  support_zones : List LiquidityZone := []
  resistance_zones : List LiquidityZone := []
  scalp_suggestion : Option TradeSuggestion := none
  reversal_suggestion : Option TradeSuggestion := none
  reasons : List Reason := []
deriving DecidableEq, Repr

/-- Mutable state of a `SignalEngine` instance: `imbalance_history`
(a `deque(maxlen=60)`) and the running `cumulative_delta`. -/
structure EngineState where
  imbalance_history : List ℚ
  cumulative_delta : ℚ
deriving DecidableEq, Repr

/-- Appending to a `collections.deque(maxlen=cap)`: the oldest entries are
evicted from the left so that at most `cap` remain. -/
def dequeAppend {α : Type} (cap : ℕ) (l : List α) (x : α) : List α :=
  let l' := l ++ [x]
  if cap < l'.length then l'.drop (l'.length - cap) else l'

/-- `SignalEngine._calc_imbalance` (signals.py lines 261-289).
Returns `(score, bid_volume, ask_volume, r)` where `r` is the source's
`ratio`. -/
def calc_imbalance (bids asks : List OrderBookLevel) : ℚ × ℚ × ℚ × ℚ :=
  let bid_volume := ((bids.take 20).map OrderBookLevel.value_usd).sum
  let ask_volume := ((asks.take 20).map OrderBookLevel.value_usd).sum
  let r : ℚ :=
    if ask_volume = 0 then 2
    else if bid_volume = 0 then 1/2
    else bid_volume / ask_volume
  let score : ℚ :=
    if 1 ≤ r then min 100 ((r - 1) * 50) else max (-100) ((r - 1) * 100)
  (score, bid_volume, ask_volume, r)

/-- Reference definition of the imbalance component taken verbatim from the
specification (spec.md §4.2, "Imbalance score"): with `B` the top-20 bid
quote value and `A` the top-20 ask quote value, `r = B/A` except `r = 2` when
`A = 0` and `r = 1/2` when `B = 0` (and `A` nonzero); if `r ≥ 1` the score is
`min 100 ((r-1)·50)`, else `max (-100) ((r-1)·100)`. -/
def imbalance_score_spec (bids asks : List OrderBookLevel) : ℚ :=
  let B := ((bids.take 20).map (fun l => l.price * l.quantity)).sum
  let A := ((asks.take 20).map (fun l => l.price * l.quantity)).sum
  let r : ℚ := if A = 0 then 2 else if B = 0 then 1/2 else B / A
  if 1 ≤ r then min 100 ((r - 1) * 50) else max (-100) ((r - 1) * 100)

/-- `SignalEngine._calc_weighted_pressure` (signals.py lines 291-321) with
`decay_rate = 0.1`; `wexp` stands for `math.exp`. -/
def calc_weighted_pressure (wexp : ℚ → ℚ) (bids asks : List OrderBookLevel)
    (mid_price : ℚ) : ℚ :=
  let decay_rate : ℚ := 1/10
  let bid_pressure := ((bids.take 30).map (fun b =>
      b.value_usd * wexp (-(decay_rate * ((mid_price - b.price) / mid_price) * 100)))).sum
  let ask_pressure := ((asks.take 30).map (fun a =>
      a.value_usd * wexp (-(decay_rate * ((a.price - mid_price) / mid_price) * 100)))).sum
  let total := bid_pressure + ask_pressure
  if total = 0 then 0 else (bid_pressure - ask_pressure) / total * 100

/-- Python's `max(levels, key=value_usd)`: first level of maximal quote
value, `none` on the empty list. -/
def pyMaxBy (l : List OrderBookLevel) : Option OrderBookLevel :=
  l.foldl (fun acc x =>
    match acc with
    | none => some x
    | some m => if m.value_usd < x.value_usd then some x else some m) none

/-- `SignalEngine._calc_wall_score` (signals.py lines 323-359).
Returns `(score, largest_bid_usd, largest_ask_usd)`. -/
def calc_wall_score (bids asks : List OrderBookLevel)
    (total_bid total_ask : ℚ) : ℚ × ℚ × ℚ :=
  let largest_bid_usd :=
    match pyMaxBy (bids.take 20) with
    | some b => b.value_usd
    | none => 0
  let largest_ask_usd :=
    match pyMaxBy (asks.take 20) with
    | some a => a.value_usd
    | none => 0
  let bid_wall_pct := if 0 < total_bid then largest_bid_usd / total_bid * 100 else 0
  let ask_wall_pct := if 0 < total_ask then largest_ask_usd / total_ask * 100 else 0
  let score : ℚ :=
    (if 15 < bid_wall_pct then min 50 bid_wall_pct else 0)
    - (if 15 < ask_wall_pct then min 50 ask_wall_pct else 0)
    + (if 100000 < largest_bid_usd then 20 else 0)
    - (if 100000 < largest_ask_usd then 20 else 0)
  (max (-100) (min 100 score), largest_bid_usd, largest_ask_usd)

/-- `SignalEngine._calc_spread_score` (signals.py lines 361-387).
Returns `(score, spread_bps)`. -/
def calc_spread_score (bids asks : List OrderBookLevel) : ℚ × ℚ :=
  match bids.head?, asks.head? with
  | some b, some a =>
    let spread := a.price - b.price
    let mid := (a.price + b.price) / 2
    let spread_bps := spread / mid * 10000
    let score : ℚ := if spread_bps < 5 then 10 else if 50 < spread_bps then -10 else 0
    (score, spread_bps)
  | _, _ => (0, 0)

/-- `SignalEngine._calc_flow_score` (signals.py lines 389-406), with the
side-effect on `cumulative_delta` made explicit: returns
`(score, new_cumulative_delta)`.  Note the early return on `total == 0`
happens before the delta accumulation. -/
def calc_flow_score (recent_trades : List (ℚ × Side)) (cumulative_delta : ℚ) :
    ℚ × ℚ :=
  let buy_volume := ((recent_trades.filter (fun t => t.2 = Side.buy)).map Prod.fst).sum
  let sell_volume := ((recent_trades.filter (fun t => t.2 = Side.sell)).map Prod.fst).sum
  let total := buy_volume + sell_volume
  if total = 0 then (0, cumulative_delta)
  else
    let delta := buy_volume - sell_volume
    (delta / total * 100, cumulative_delta + delta)

/-- `SignalEngine._calc_momentum` (signals.py lines 408-431), applied to the
history after the current ratio is appended. -/
def calc_momentum (history : List ℚ) : ℚ :=
  if history.length < 10 then 0
  else
    let recent := (history.drop (history.length - 10)).sum / 10
    let older := if 20 ≤ history.length then (history.take 10).sum / 10 else recent
    if older = 0 then 0
    else max (-100) (min 100 ((recent - older) / older * 300))

/-- `SignalEngine._score_to_signal` (signals.py lines 433-450). -/
def score_to_signal (score : ℚ) : Signal × ℚ :=
  let confidence := min 100 (|score| * 2)
  if 40 ≤ score then (Signal.STRONG_BUY, confidence)
  else if 20 ≤ score then (Signal.BUY, confidence)
  else if score ≤ -40 then (Signal.STRONG_SELL, confidence)
  else if score ≤ -20 then (Signal.SELL, confidence)
  else (Signal.NEUTRAL, confidence)

/-- Python's built-in `round` on a rational: round half to even. -/
def pyRound (q : ℚ) : ℤ :=
  let f := Int.floor q
  let frac := q - f
  if frac < 1/2 then f
  else if 1/2 < frac then f + 1
  else if f % 2 = 0 then f else f + 1

/-- Per-bucket accumulator of `_find_liquidity_zones`: the Python dict value
`{"volume": .., "count": .., "prices": [..]}`. -/
structure ClusterData where
  volume : ℚ
  count : ℕ
  prices : List ℚ
deriving DecidableEq, Repr

/-- Insertion-ordered dict update: add a level to the bucket keyed
`cluster_price`, appending a new bucket at the end when absent. -/
def clusterAdd : List (ℚ × ClusterData) → ℚ → ℚ → ℚ → List (ℚ × ClusterData)
  | [], key, v, p => [(key, ⟨v, 1, [p]⟩)]
  | (k, d) :: rest, key, v, p =>
    if k = key then (k, ⟨d.volume + v, d.count + 1, d.prices ++ [p]⟩) :: rest
    else (k, d) :: clusterAdd rest key v p

/-- The bucketing loop of `_find_liquidity_zones` for one side: levels whose
percent distance (computed by `distOf`) lies in `[min_distance_pct,
max_distance_pct] = [0, 50]` are grouped by the rounded bucket price. -/
def buildClusters (levels : List OrderBookLevel) (bucket_w : ℚ)
    (distOf : ℚ → ℚ) : List (ℚ × ClusterData) :=
  levels.foldl (fun cs lvl =>
    let d := distOf lvl.price
    if 0 ≤ d ∧ d ≤ 50 then
      clusterAdd cs ((pyRound (lvl.price / bucket_w) : ℚ) * bucket_w)
        lvl.value_usd lvl.price
    else cs) []

/-- Turn one side's buckets into `LiquidityZone`s (second half of each loop in
`_find_liquidity_zones`). -/
def clustersToZones (clusters : List (ℚ × ClusterData)) (side : ZoneSide)
    (distOf : ℚ → ℚ) : List LiquidityZone :=
  let total_volume : ℚ :=
    if clusters = [] then 1 else (clusters.map (fun c => c.2.volume)).sum
  clusters.map (fun c =>
    let avg_price : ℚ :=
      if c.2.prices = [] then c.1 else c.2.prices.sum / (c.2.prices.length : ℚ)
    { price := avg_price
      total_volume_usd := c.2.volume
      side := side
      distance_pct := distOf avg_price
      order_count := c.2.count
      is_major := decide (total_volume * (1/5) < c.2.volume ∨ (100000 : ℚ) < c.2.volume) })

/-- `SignalEngine._find_liquidity_zones` (signals.py lines 489-571) with the
default parameters `min_distance_pct = 0`, `max_distance_pct = 50`,
`cluster_threshold_pct = 0.15`.  Zones are sorted descending by volume with
Python's stable sort. -/
def find_liquidity_zones (bids asks : List OrderBookLevel) (mid_price : ℚ) :
    List LiquidityZone × List LiquidityZone :=
  if mid_price = 0 then ([], [])
  else
    let bucket_w := mid_price * (3/20) / 100
    let bidDist : ℚ → ℚ := fun p => (mid_price - p) / mid_price * 100
    let askDist : ℚ → ℚ := fun p => (p - mid_price) / mid_price * 100
    let support := clustersToZones (buildClusters bids bucket_w bidDist) ZoneSide.bid bidDist
    let resistance := clustersToZones (buildClusters asks bucket_w askDist) ZoneSide.ask askDist
    (support.mergeSort (fun a b => decide (b.total_volume_usd ≤ a.total_volume_usd)),
     resistance.mergeSort (fun a b => decide (b.total_volume_usd ≤ a.total_volume_usd)))

/-- `SignalEngine._generate_reasons` (signals.py lines 452-487), producing
reason tags in the source's order. -/
def generate_reasons (result : SignalResult) : List Reason :=
  let rs : List Reason :=
    (if 13/10 < result.imbalance_quot then [Reason.strongBidImbalance]
     else if result.imbalance_quot < 7/10 then [Reason.strongAskImbalance]
     else [])
    ++ (if (50000 : ℚ) < result.largest_bid_usd then [Reason.largeBidWall] else [])
    ++ (if (50000 : ℚ) < result.largest_ask_usd then [Reason.largeAskWall] else [])
    ++ (if (30 : ℚ) < result.momentum_score then [Reason.bullishMomentum]
        else if result.momentum_score < -30 then [Reason.bearishMomentum]
        else [])
    ++ (if (30 : ℚ) < result.spread_bps then [Reason.wideSpread] else [])
    ++ (if (40 : ℚ) < result.flow_score then [Reason.heavyBuyFlow]
        else if result.flow_score < -40 then [Reason.heavySellFlow]
        else [])
  if rs = [] then [Reason.noStrongSignals] else rs

/-- `SignalEngine._generate_suggestions` (signals.py lines 573-660); reads
`score`, `spread_bps`, `confidence`, `mid_price` and the volume-sorted zone
lists from the partially built result; returns `(scalp, reversal)`. -/
def generate_suggestions (result : SignalResult) :
    Option TradeSuggestion × Option TradeSuggestion :=
  let mid_price := result.mid_price
  if mid_price = 0 then (none, none)
  else
    let scalp : Option TradeSuggestion :=
      if 20 ≤ result.score then
        let stop_distance := max (result.spread_bps * 3 / 10000) (1/200)
        let target_distance := stop_distance * 2
        some { action := SuggestAction.LONG, mode := SuggestMode.scalp
               entry_price := mid_price
               target_price := mid_price * (1 + target_distance)
               stop_price := mid_price * (1 - stop_distance)
               confidence := min result.confidence 80 }
      else if result.score ≤ -20 then
        let stop_distance := max (result.spread_bps * 3 / 10000) (1/200)
        let target_distance := stop_distance * 2
        some { action := SuggestAction.SHORT, mode := SuggestMode.scalp
               entry_price := mid_price
               target_price := mid_price * (1 - target_distance)
               stop_price := mid_price * (1 + stop_distance)
               confidence := min result.confidence 80 }
      else none
    let major_supports := result.support_zones.filter (fun z => z.is_major)
    let major_resistances := result.resistance_zones.filter (fun z => z.is_major)
    let reversal_long : Option TradeSuggestion :=
      match major_supports.head? with
      | some best_support =>
        if best_support.distance_pct < 10 then
          let target_price :=
            match major_resistances.head? with
            | some r => r.price
            | none => mid_price * (1 + best_support.distance_pct / 100)
          some { action := SuggestAction.LONG, mode := SuggestMode.reversal
                 entry_price := best_support.price
                 target_price := target_price
                 stop_price := best_support.price * (97/100)
                 confidence := min 70 (best_support.total_volume_usd / 10000) }
        else none
      | none => none
    let reversal : Option TradeSuggestion :=
      match reversal_long with
      | some r => some r
      | none =>
        match major_resistances.head? with
        | some best_resistance =>
          if best_resistance.distance_pct < 10 then
            let target_price :=
              match major_supports.head? with
              | some s => s.price
              | none => mid_price * (1 - best_resistance.distance_pct / 100)
            some { action := SuggestAction.SHORT, mode := SuggestMode.reversal
                   entry_price := best_resistance.price
                   target_price := target_price
                   stop_price := best_resistance.price * (103/100)
                   confidence := min 70 (best_resistance.total_volume_usd / 10000) }
          else none
        | none => none
    (scalp, reversal)

/-- The flow step of `analyze` (signals.py lines 214-216): `_calc_flow_score`
runs only under the truthiness guard `if recent_trades:`, which is falsy for
both `None` and the empty list; otherwise score 0 and an untouched
`cumulative_delta`. -/
def flow_update (recent_trades : Option (List (ℚ × Side))) (c : ℚ) : ℚ × ℚ :=
  match recent_trades with
  | some ts => if ts = [] then (0, c) else calc_flow_score ts c
  | none => (0, c)

/-- The early-return value of `SignalEngine.analyze` on an empty side
(signals.py lines 192-196): a default `SignalResult` that is `NEUTRAL` with
confidence 0 and score 0, plus the "Insufficient data" reason. -/
def insufficient_result : SignalResult :=
  { signal := Signal.NEUTRAL, confidence := 0, score := 0
    reasons := [Reason.insufficientData] }

/-- `SignalEngine.analyze` (signals.py lines 175-259) as a state-passing
function; returns the `SignalResult` and the engine state after the call.
`recent_trades` is `none` for the Python default `None`; the `if
recent_trades:` guard is falsy for both `None` and the empty list. -/
def analyze (st : EngineState) (wexp : ℚ → ℚ)
    (bids asks : List OrderBookLevel)
    (recent_trades : Option (List (ℚ × Side))) : SignalResult × EngineState :=
  match bids, asks with
  | [], _ => (insufficient_result, st)
  | _ :: _, [] => (insufficient_result, st)
  | b0 :: _, a0 :: _ =>
    let mid_price := (b0.price + a0.price) / 2
    let imb := calc_imbalance bids asks
    let weighted_pressure_score := calc_weighted_pressure wexp bids asks mid_price
    let wall := calc_wall_score bids asks imb.2.1 imb.2.2.1
    let spread := calc_spread_score bids asks
    let flow := flow_update recent_trades st.cumulative_delta
    let history' := dequeAppend 60 st.imbalance_history imb.2.2.2
    let momentum_score := calc_momentum history'
    let score :=
      imb.1 * (1/4) + weighted_pressure_score * (1/5) + wall.1 * (3/20)
      + spread.1 * (1/10) + flow.1 * (1/5) + momentum_score * (1/10)
    let sig := score_to_signal score
    let zones := find_liquidity_zones bids asks mid_price
    let result0 : SignalResult :=
      { signal := sig.1, confidence := sig.2, score := score
        imbalance_score := imb.1
        weighted_pressure_score := weighted_pressure_score
        wall_score := wall.1
        spread_score := spread.1
        flow_score := flow.1
        momentum_score := momentum_score
        bid_volume := imb.2.1
        ask_volume := imb.2.2.1
        imbalance_quot := imb.2.2.2
        spread_bps := spread.2
        largest_bid_usd := wall.2.1
        largest_ask_usd := wall.2.2
        mid_price := mid_price
        support_zones := zones.1
        resistance_zones := zones.2 }
    let sugg := generate_suggestions result0
    let zone_notes : List Reason :=
      (match zones.1.head? with
       | some z => if z.is_major then [Reason.majorSupportNote] else []
       | none => [])
      ++ (match zones.2.head? with
          | some z => if z.is_major then [Reason.majorResistanceNote] else []
          | none => [])
    ({ result0 with
        scalp_suggestion := sugg.1
        reversal_suggestion := sugg.2
        reasons := generate_reasons result0 ++ zone_notes },
     { imbalance_history := history', cumulative_delta := flow.2 })

/-- Alert kind strings used by `analyzer.py`. -/
inductive AlertKind where
  | whale_trade
  | large_trade
  | wall_detected
  | imbalance
deriving DecidableEq, Repr

/-- `WhaleAlert` dataclass (`analyzer.py` lines 15-36); the formatted
`details` string is presentation only. -/
structure WhaleAlert where
  symbol : String
  alert_type : AlertKind
  side : Side
  value_usd : ℚ
  price : ℚ
  timestamp : ℚ
deriving DecidableEq, Repr

/-- The dedup key compared by `OrderFlowAnalyzer._emit_alert`:
`(symbol, alert_type, side)`. -/
def sameKey (a b : WhaleAlert) : Prop :=
  a.symbol = b.symbol ∧ a.alert_type = b.alert_type ∧ a.side = b.side

instance (a b : WhaleAlert) : Decidable (sameKey a b) := by
  unfold sameKey; infer_instance

/-- `OrderFlowAnalyzer._emit_alert` (analyzer.py lines 234-251) acting on the
alert deque (`maxlen=500`): the alert is dropped when the most recently
stored alert has the same `(symbol, alert_type, side)` and its `timestamp`
is less than 5 seconds old relative to the wall clock `now`
(`time.time() - last.timestamp < 5`). -/
def emit_alert (alerts : List WhaleAlert) (now : ℚ) (alert : WhaleAlert) :
    List WhaleAlert :=
  match alerts.getLast? with
  | some last =>
    if sameKey last alert ∧ now - last.timestamp < 5 then alerts
    else dequeAppend 500 alerts alert
  | none => dequeAppend 500 alerts alert

/-- A run of the analyzer's emission path: fold `emit_alert` over a sequence
of `(wall-clock time, alert)` events starting from the empty deque. -/
def emit_run (events : List (ℚ × WhaleAlert)) : List WhaleAlert :=
  events.foldl (fun acc e => emit_alert acc e.1 e.2) []

/-- Minimum separation demanded of two consecutively stored alerts that share
a dedup key (used to state what the dedup actually guarantees). -/
def dedupSep (a b : WhaleAlert) : Prop :=
  sameKey a b → 5 ≤ b.timestamp - a.timestamp

/-- `OrderBook.bid_total_usd` property (bingx_client.py lines 34-36): quote
value over the top 20 bid levels. -/
def bid_total_usd (bids : List OrderBookLevel) : ℚ :=
  ((bids.take 20).map OrderBookLevel.value_usd).sum

/-- `OrderBook.ask_total_usd` property (bingx_client.py lines 38-40). -/
def ask_total_usd (asks : List OrderBookLevel) : ℚ :=
  ((asks.take 20).map OrderBookLevel.value_usd).sum

/-- `OrderBook.imbalance_ratio` property (bingx_client.py lines 42-47):
returns 1.0 when the top-20 ask value sums to zero, else bid/ask. -/
def ob_imbalance (bids asks : List OrderBookLevel) : ℚ :=
  if ask_total_usd asks = 0 then 1
  else bid_total_usd bids / ask_total_usd asks

/-- `THRESHOLDS.imbalance_ratio` from `config.py` (default 1.5). -/
def imbalance_threshold : ℚ := 3/2

/-- `OrderFlowAnalyzer._detect_imbalance` (analyzer.py lines 208-232): the
alert constructed from the stats, or `none` when neither threshold is met
(the subsequent `_emit_alert` dedup is modelled separately). -/
def detect_imbalance (symbol : String) (r bid_vol ask_vol last_price now : ℚ) :
    Option WhaleAlert :=
  if imbalance_threshold ≤ r then
    some { symbol := symbol, alert_type := AlertKind.imbalance, side := Side.buy
           value_usd := bid_vol, price := last_price, timestamp := now }
  else if r ≤ 1 / imbalance_threshold then
    some { symbol := symbol, alert_type := AlertKind.imbalance, side := Side.sell
           value_usd := ask_vol, price := last_price, timestamp := now }
  else none

/-- Events a `CoinWatcher` (server_v2.py) processes, restricted to the data
its `recent_trades` list depends on: a `Trade` callback carries the trade's
quote value, side and the wall-clock arrival time `time.time()`; a
`BookSnapshot` callback carries the wall-clock time of the update. -/
inductive WatchEvent where
  | trade (value : ℚ) (side : Side) (now : ℚ)
  | book (now : ℚ)
deriving DecidableEq, Repr

/-- `CoinWatcher._on_trade` effect on `recent_trades` (server_v2.py lines
123-130): append `(value_usd, side, time.time())` and, when more than 100
entries, keep the last 100. -/
def on_trade (rt : List (ℚ × Side × ℚ)) (value : ℚ) (side : Side) (now : ℚ) :
    List (ℚ × Side × ℚ) :=
  let l := rt ++ [(value, side, now)]
  if 100 < l.length then l.drop (l.length - 100) else l

/-- `CoinWatcher._on_orderbook` effect on `recent_trades` (server_v2.py lines
104-110): keep only trades with `t > time.time() - 60` (the tuple-shape
guard `len(...) == 3` always holds for the tuples `_on_trade` stores, and an
empty list is returned unchanged either way). -/
def on_orderbook_trim (rt : List (ℚ × Side × ℚ)) (now : ℚ) :
    List (ℚ × Side × ℚ) :=
  rt.filter (fun x => now - 60 < x.2.2)

/-- One watcher event applied to `recent_trades`. -/
def watcher_step (rt : List (ℚ × Side × ℚ)) : WatchEvent → List (ℚ × Side × ℚ)
  | WatchEvent.trade v s n => on_trade rt v s n
  | WatchEvent.book n => on_orderbook_trim rt n

/-- A watcher's `recent_trades` after a sequence of events, starting from the
empty list set up by `CoinWatcher.start`. -/
def watcher_run (events : List WatchEvent) : List (ℚ × Side × ℚ) :=
  events.foldl watcher_step []

/-- The parts of a `CoinWatcher` relevant to its connection lifecycle
(server_v2.py lines 31-80): the `running` flag, the owned `SignalEngine`
state and `recent_trades`. -/
structure CoinWatcher where
  running : Bool
  engine : EngineState
  recent_trades : List (ℚ × Side × ℚ)
deriving DecidableEq, Repr

/-- `CoinWatcher.start` (server_v2.py lines 48-71): returns unchanged when
already running; otherwise sets `running`, installs a fresh
`SignalEngine(symbol)` (empty `imbalance_history`, zero `cumulative_delta`)
and clears `recent_trades`, then spawns `_run_client`. -/
def CoinWatcher.start (w : CoinWatcher) : CoinWatcher :=
  if w.running then w
  else { running := true
         engine := { imbalance_history := [], cumulative_delta := 0 }
         recent_trades := [] }

/-- The effect of `CoinWatcher._run_client` returning (server_v2.py lines
73-80), which is what happens when the adapter's connection is lost: the
`finally` block clears `running` and the method ends.  The source contains
no sleep, backoff or reconnection attempt on this path. -/
def CoinWatcher.connection_lost (w : CoinWatcher) : CoinWatcher :=
  { w with running := false }

/-- Status values returned by the REST watch endpoint
(`server_v2.py` `start_watching`). -/
inductive WatchStatus where
  | watching
  | already_watching
  | error_contract_not_found
deriving DecidableEq, Repr

/-- REST `POST /api/watch/{exchange}/{symbol}` (server_v2.py lines 265-283)
acting on the watcher-key registry: already-watching keys are returned as
such with the registry unchanged; otherwise the contract catalog is
consulted and an unknown instrument is a structured error with no watcher
created; otherwise the watcher is created. -/
def start_watching (catalog : List String) (watchers : List String)
    (exchange symbol : String) : WatchStatus × List String :=
  let key := exchange ++ ":" ++ symbol
  if key ∈ watchers then (WatchStatus.already_watching, watchers)
  else if key ∈ catalog then (WatchStatus.watching, watchers ++ [key])
  else (WatchStatus.error_contract_not_found, watchers)

/-- The `"watch"` action of the client WebSocket endpoint (server_v2.py lines
334-343): when both fields are non-empty, a watcher is created if the key is
not registered — with no contract-catalog lookup — and a `watching` reply
carrying the key is sent either way; falsy fields do nothing. -/
def ws_watch (watchers : List String) (exchange symbol : String) :
    List String × Option String :=
  if exchange ≠ "" ∧ symbol ≠ "" then
    let key := exchange ++ ":" ++ symbol
    ((if key ∈ watchers then watchers else watchers ++ [key]), some key)
  else (watchers, none)

/-- Both-sided range `[-100, 100]` used by the score invariants. -/
def inRange (x : ℚ) : Prop :=
  -100 ≤ x ∧ x ≤ 100

instance (x : ℚ) : Decidable (inRange x) := by
  unfold inRange; infer_instance

theorem div_mul_100_mem (x y : ℚ) (hx : 0 ≤ x) (hy : 0 ≤ y) (h0 : x + y ≠ 0) :
    inRange ((x - y) / (x + y) * 100) := by
  have hpos : 0 < x + y := lt_of_le_of_ne (by linarith) (Ne.symm h0)
  constructor
  · rw [div_mul_eq_mul_div, le_div_iff₀ hpos]
    linarith
  · rw [div_mul_eq_mul_div, div_le_iff₀ hpos]
    linarith

theorem clamp_mem (x : ℚ) : inRange (max (-100) (min 100 x)) := by
  constructor
  · exact le_max_left _ _
  · exact max_le (by norm_num) (min_le_left _ _)

theorem list_sum_nonneg {l : List ℚ} (h : ∀ x ∈ l, 0 ≤ x) : 0 ≤ l.sum := by
  induction l with
  | nil => simp
  | cons a t ih =>
    simp only [List.sum_cons]
    have ha := h a (by simp)
    have ht := ih (fun x hx => h x (List.mem_cons_of_mem _ hx))
    linarith

/-- C3 (claim): for every list of bid and ask levels, the engine's imbalance
component equals the specification's reference definition (ratio `B/A` with
the `A = 0 ↦ 2.0` and `B = 0 ↦ 0.5` exceptions, then the piecewise
min/max score formula). -/
theorem calc_imbalance_matches_spec (bids asks : List OrderBookLevel) :
    (calc_imbalance bids asks).1 = imbalance_score_spec bids asks := rfl

/-- C2 (claim): when the bid list or the ask list is empty,
`SignalEngine.analyze` returns a `NEUTRAL` result with score 0,
confidence 0 and the "Insufficient data" reason (the embedding is a total
function, so no exception is possible on this path). -/
theorem analyze_empty_book_neutral (st : EngineState) (wexp : ℚ → ℚ)
    (bids asks : List OrderBookLevel)
    (recent_trades : Option (List (ℚ × Side)))
    (h : bids = [] ∨ asks = []) :
    (analyze st wexp bids asks recent_trades).1.signal = Signal.NEUTRAL ∧
    (analyze st wexp bids asks recent_trades).1.confidence = 0 ∧
    (analyze st wexp bids asks recent_trades).1.score = 0 ∧
    (analyze st wexp bids asks recent_trades).1.reasons = [Reason.insufficientData] := by
  rcases h with h | h
  · subst h
    cases asks <;> simp [analyze, insufficient_result]
  · subst h
    cases bids <;> simp [analyze, insufficient_result]

theorem analyze_empty_book_neutral_witness :
    (analyze ⟨[], 0⟩ (fun _ => 1) [] [⟨1, 1⟩] none).1.signal = Signal.NEUTRAL ∧
    (analyze ⟨[], 0⟩ (fun _ => 1) [] [⟨1, 1⟩] none).1.confidence = 0 ∧
    (analyze ⟨[], 0⟩ (fun _ => 1) [] [⟨1, 1⟩] none).1.score = 0 ∧
    (analyze ⟨[], 0⟩ (fun _ => 1) [] [⟨1, 1⟩] none).1.reasons = [Reason.insufficientData] :=
  analyze_empty_book_neutral _ _ _ _ _ (Or.inl rfl)

/-- C9 (claim): the insufficient-data early return of `analyze` leaves the
engine state untouched (no history append, `cumulative_delta` kept), and
`cumulative_delta` is also unchanged on any call whose trade window is
absent (`None`) or empty. -/
theorem analyze_early_return_preserves_state (st : EngineState) (wexp : ℚ → ℚ)
    (bids asks : List OrderBookLevel)
    (recent_trades : Option (List (ℚ × Side))) :
    ((bids = [] ∨ asks = []) → (analyze st wexp bids asks recent_trades).2 = st) ∧
    ((recent_trades = none ∨ recent_trades = some []) →
      (analyze st wexp bids asks recent_trades).2.cumulative_delta = st.cumulative_delta) := by
  constructor
  · rintro (h | h) <;> subst h
    · cases asks <;> simp [analyze]
    · cases bids <;> simp [analyze]
  · rintro (h | h) <;> subst h <;> cases bids <;> cases asks <;>
      simp [analyze, flow_update]

theorem analyze_early_return_preserves_state_witness :
    (analyze ⟨[3], 7⟩ (fun _ => 1) [] [⟨1, 1⟩] none).2 = (⟨[3], 7⟩ : EngineState) ∧
    (analyze ⟨[3], 7⟩ (fun _ => 1) [⟨2, 1⟩] [⟨3, 1⟩] (some [])).2.cumulative_delta = 7 :=
  ⟨(analyze_early_return_preserves_state _ _ _ _ _).1 (Or.inl rfl),
   (analyze_early_return_preserves_state _ _ _ _ _).2 (Or.inr rfl)⟩

/-- C10 (claim): the adapter-level `OrderBook.imbalance_ratio` returns
exactly 1 whenever the top-20 ask value sums to zero — unlike the signal
engine's `r = 2.0` rule for the same situation — so such a book reads as
neutral pressure and can never produce the analyzer's imbalance alert
(thresholds `≥ 1.5` or `≤ 1/1.5`). -/
theorem ob_imbalance_zero_asks_neutral (bids asks : List OrderBookLevel)
    (symbol : String) (bid_vol ask_vol last_price now : ℚ)
    (h : ask_total_usd asks = 0) :
    ob_imbalance bids asks = 1 ∧
    detect_imbalance symbol (ob_imbalance bids asks) bid_vol ask_vol last_price now = none ∧
    (calc_imbalance bids asks).2.2.2 = 2 := by
  have h1 : ob_imbalance bids asks = 1 := by simp [ob_imbalance, h]
  refine ⟨h1, ?_, ?_⟩
  · rw [h1]
    simp only [detect_imbalance, imbalance_threshold]
    norm_num
  · have h' : ((asks.take 20).map OrderBookLevel.value_usd).sum = 0 := h
    simp only [calc_imbalance]
    rw [if_pos h']

theorem ob_imbalance_zero_asks_neutral_witness :
    ob_imbalance [⟨5, 2⟩] [] = 1 ∧
    detect_imbalance "WIF-USDT" (ob_imbalance [⟨5, 2⟩] []) 10 0 5 0 = none ∧
    (calc_imbalance [⟨5, 2⟩] []).2.2.2 = 2 :=
  ob_imbalance_zero_asks_neutral _ _ _ _ _ _ _ (by decide)

/-- C5 (counterexample): the client WebSocket `"watch"` action performs no
contract-catalog lookup — with an empty catalog (no contract exists at all)
it still creates a watcher for `bingx:FOO` instead of rejecting the request,
so the claim that both entry points reject unknown instruments is false. -/
theorem ws_watch_no_catalog_check :
    (ws_watch [] "bingx" "FOO").1 = ["bingx:FOO"] ∧
    (ws_watch [] "bingx" "FOO").2 = some "bingx:FOO" ∧
    "bingx:FOO" ∉ ([] : List String) := by decide

/-- C5 (amended): the REST endpoint checks the catalog — an unknown
instrument yields a structured error and no watcher, an existing key is
idempotently reported as already watching, and a known new key is added —
while the WebSocket `"watch"` action creates the watcher for any unknown key
without consulting the catalog, and is idempotent for existing keys. -/
theorem watch_paths_behavior (catalog watchers : List String)
    (exchange symbol : String) :
    (exchange ++ ":" ++ symbol ∈ watchers →
      start_watching catalog watchers exchange symbol
        = (WatchStatus.already_watching, watchers)) ∧
    (exchange ++ ":" ++ symbol ∉ watchers →
      exchange ++ ":" ++ symbol ∉ catalog →
      start_watching catalog watchers exchange symbol
        = (WatchStatus.error_contract_not_found, watchers)) ∧
    (exchange ++ ":" ++ symbol ∉ watchers →
      exchange ++ ":" ++ symbol ∈ catalog →
      start_watching catalog watchers exchange symbol
        = (WatchStatus.watching, watchers ++ [exchange ++ ":" ++ symbol])) ∧
    (exchange ≠ "" → symbol ≠ "" → exchange ++ ":" ++ symbol ∈ watchers →
      ws_watch watchers exchange symbol
        = (watchers, some (exchange ++ ":" ++ symbol))) ∧
    (exchange ≠ "" → symbol ≠ "" → exchange ++ ":" ++ symbol ∉ watchers →
      ws_watch watchers exchange symbol
        = (watchers ++ [exchange ++ ":" ++ symbol], some (exchange ++ ":" ++ symbol))) := by
  refine ⟨fun h1 => ?_, fun h1 h2 => ?_, fun h1 h2 => ?_,
    fun he hs h1 => ?_, fun he hs h1 => ?_⟩
  · simp [start_watching, h1]
  · simp [start_watching, h1, h2]
  · simp [start_watching, h1, h2]
  · simp [ws_watch, he, hs, h1]
  · simp [ws_watch, he, hs, h1]

theorem watch_paths_behavior_witness :
    start_watching ["bingx:WIF-USDT"] [] "bingx" "WIF-USDT"
      = (WatchStatus.watching, ["bingx:WIF-USDT"]) ∧
    ws_watch ["bingx:WIF-USDT"] "bingx" "WIF-USDT"
      = (["bingx:WIF-USDT"], some "bingx:WIF-USDT") :=
  ⟨(watch_paths_behavior ["bingx:WIF-USDT"] [] "bingx" "WIF-USDT").2.2.1
      (by decide) (by decide),
   (watch_paths_behavior ["bingx:WIF-USDT"] ["bingx:WIF-USDT"] "bingx" "WIF-USDT").2.2.2.1
      (by decide) (by decide) (by decide)⟩

/-- C7 (counterexample): two `Trade` events 100 s apart with no intervening
book snapshot leave a trade in `recent_trades` that is 100 s older than the
most recent trade processed — age eviction happens only in the book
handler, so the claimed after-every-event freshness invariant is false. -/
theorem recent_trades_age_counterexample :
    watcher_run [WatchEvent.trade 1 Side.buy 0, WatchEvent.trade 1 Side.buy 100]
      = [(1, Side.buy, 0), (1, Side.buy, 100)] ∧
    (60 : ℚ) < 100 - 0 :=
  ⟨by decide, by norm_num⟩

theorem watcher_step_length_le (rt : List (ℚ × Side × ℚ)) (ev : WatchEvent)
    (h : rt.length ≤ 100) : (watcher_step rt ev).length ≤ 100 := by
  cases ev with
  | trade v s n =>
    simp only [watcher_step, on_trade]
    split
    · rw [List.length_drop]
      omega
    · simp only [List.length_append, List.length_singleton] at *
      omega
  | book n =>
    simpa only [watcher_step, on_orderbook_trim] using
      le_trans (List.length_filter_le _ rt) h

theorem watcher_fold_length_le (events : List WatchEvent) :
    ∀ rt : List (ℚ × Side × ℚ), rt.length ≤ 100 →
      (events.foldl watcher_step rt).length ≤ 100 := by
  induction events with
  | nil => intro rt h; simpa using h
  | cons e t ih =>
    intro rt h
    simpa using ih _ (watcher_step_length_le rt e h)

/-- C7 (amended): after every event `recent_trades` holds at most 100
entries, and after a `BookSnapshot` event every retained trade is strictly
younger than 60 s relative to that event's wall-clock time; the age bound is
only restored on book events, not after `Trade` events. -/
theorem recent_trades_bounds (events : List WatchEvent) (now : ℚ)
    (x : ℚ × Side × ℚ)
    (hx : x ∈ watcher_run (events ++ [WatchEvent.book now])) :
    (watcher_run events).length ≤ 100 ∧ now - x.2.2 < 60 := by
  constructor
  · exact watcher_fold_length_le events [] (by simp)
  · unfold watcher_run at hx
    rw [List.foldl_append] at hx
    simp only [List.foldl_cons, List.foldl_nil, watcher_step,
      on_orderbook_trim] at hx
    have := (List.mem_filter.mp hx).2
    have h' : now - 60 < x.2.2 := by exact_mod_cast of_decide_eq_true this
    linarith

theorem recent_trades_bounds_witness :
    (watcher_run [WatchEvent.trade 1 Side.buy 0]).length ≤ 100 ∧
    (30 : ℚ) - (1, Side.buy, (0 : ℚ)).2.2 < 60 :=
  recent_trades_bounds [WatchEvent.trade 1 Side.buy 0] 30 (1, Side.buy, 0)
    (by norm_num [watcher_run, watcher_step, on_trade, on_orderbook_trim])

/-- C8 (counterexample): a running watcher whose signal engine holds 25
history samples and a nonzero cumulative delta loses both on the only
restart path the code has — `_run_client` merely clears `running` on
connection loss (no backoff, no reopen), and a subsequent `start()` installs
a fresh `SignalEngine`, so the history is not preserved across a
reconnect. -/
theorem reconnect_resets_history_counterexample :
    ((⟨true, ⟨List.replicate 25 1, 3⟩, []⟩ : CoinWatcher).connection_lost).running = false ∧
    ((⟨true, ⟨List.replicate 25 1, 3⟩, []⟩ : CoinWatcher).connection_lost).engine.imbalance_history
      = List.replicate 25 1 ∧
    (((⟨true, ⟨List.replicate 25 1, 3⟩, []⟩ : CoinWatcher).connection_lost).start).engine.imbalance_history
      = [] ∧
    (((⟨true, ⟨List.replicate 25 1, 3⟩, []⟩ : CoinWatcher).connection_lost).start).engine.cumulative_delta
      = 0 ∧
    List.replicate 25 (1 : ℚ) ≠ [] := by decide

/-- C8 (amended): when the adapter connection is lost the watcher's client
task ends with `running := false`, leaving the engine state untouched but
performing no backoff sleep and no reconnection; the only reopen path is a
fresh `start()`, which resets `imbalance_history` and `cumulative_delta`
(so one snapshot after such a restart yields momentum 0, not a
continuation of the pre-disconnect series). -/
theorem connection_lost_stops_watcher (w : CoinWatcher) :
    (w.connection_lost).running = false ∧
    (w.connection_lost).engine = w.engine ∧
    (w.running = false →
      w.start = ⟨true, ⟨[], 0⟩, []⟩) ∧
    (w.running = true → w.start = w) ∧
    (∀ r : ℚ, calc_momentum (dequeAppend 60 ([] : List ℚ) r) = 0) := by
  refine ⟨rfl, rfl, fun h => ?_, fun h => ?_, fun r => ?_⟩
  · simp [CoinWatcher.start, h]
  · simp [CoinWatcher.start, h]
  · simp [calc_momentum, dequeAppend]

theorem connection_lost_stops_watcher_witness :
    ((⟨false, ⟨[2], 5⟩, []⟩ : CoinWatcher).connection_lost).running = false ∧
    (⟨false, ⟨[2], 5⟩, []⟩ : CoinWatcher).start = ⟨true, ⟨[], 0⟩, []⟩ :=
  ⟨(connection_lost_stops_watcher _).1,
   (connection_lost_stops_watcher ⟨false, ⟨[2], 5⟩, []⟩).2.2.1 rfl⟩

theorem chain'_drop {α : Type} {R : α → α → Prop} :
    ∀ (n : ℕ) {l : List α}, List.Chain' R l → List.Chain' R (l.drop n)
  | 0, _, h => h
  | n + 1, l, h => by
    rw [← List.tail_drop]
    exact (chain'_drop n h).tail

theorem chain'_dequeAppend {α : Type} {R : α → α → Prop} (cap : ℕ)
    (l : List α) (x : α) (h : List.Chain' R l)
    (hx : ∀ y ∈ l.getLast?, R y x) :
    List.Chain' R (dequeAppend cap l x) := by
  have happ : List.Chain' R (l ++ [x]) :=
    List.chain'_append.mpr ⟨h, List.chain'_singleton x, by simpa using hx⟩
  simp only [dequeAppend]
  split
  · exact chain'_drop _ happ
  · exact happ

theorem emit_alert_chain (alerts : List WhaleAlert) (now : ℚ)
    (alert : WhaleAlert) (h : List.Chain' dedupSep alerts)
    (ht : alert.timestamp = now) :
    List.Chain' dedupSep (emit_alert alerts now alert) := by
  rcases hl : alerts.getLast? with _ | last
  · simp only [emit_alert, hl]
    exact chain'_dequeAppend _ _ _ h (by simp [hl])
  · simp only [emit_alert, hl]
    split
    · exact h
    · next hcond =>
      refine chain'_dequeAppend _ _ _ h ?_
      intro y hy
      rw [hl, Option.mem_some_iff] at hy
      subst hy
      intro hk
      rw [ht]
      by_contra hlt
      exact hcond ⟨hk, by linarith⟩

/-- C4 (counterexample): the dedup in `_emit_alert` compares only the most
recently stored alert, so interleaving a different `(instrument, kind,
side)` defeats it — here two buy-imbalance alerts for the same instrument
are both emitted 2 s apart (well inside a 5 s window), with a sell-side
alert emitted in between. -/
theorem alert_dedup_window_counterexample :
    emit_run
      [(0, ⟨"X", AlertKind.imbalance, Side.buy, 1, 1, 0⟩),
       (1, ⟨"X", AlertKind.imbalance, Side.sell, 1, 1, 1⟩),
       (2, ⟨"X", AlertKind.imbalance, Side.buy, 1, 1, 2⟩)]
      = [⟨"X", AlertKind.imbalance, Side.buy, 1, 1, 0⟩,
         ⟨"X", AlertKind.imbalance, Side.sell, 1, 1, 1⟩,
         ⟨"X", AlertKind.imbalance, Side.buy, 1, 1, 2⟩] ∧
    sameKey (⟨"X", AlertKind.imbalance, Side.buy, 1, 1, 0⟩ : WhaleAlert)
      ⟨"X", AlertKind.imbalance, Side.buy, 1, 1, 2⟩ ∧
    (2 : ℚ) - 0 < 5 :=
  ⟨by decide, by decide, by norm_num⟩

/-- C4 (amended): for runs in which each alert's stored timestamp equals the
wall clock at its emission (true of the wall and imbalance alerts, which
stamp `time.time()`), any two *consecutively* stored alerts sharing a
`(instrument, kind, side)` key are at least 5 s apart; the 5 s guarantee is
only against the immediately preceding emitted alert, not against any
5-second window. -/
theorem alert_dedup_consecutive (events : List (ℚ × WhaleAlert))
    (h : ∀ e ∈ events, (e.2).timestamp = e.1) :
    List.Chain' dedupSep (emit_run events) := by
  suffices haux : ∀ acc : List WhaleAlert, List.Chain' dedupSep acc →
      List.Chain' dedupSep
        (events.foldl (fun acc e => emit_alert acc e.1 e.2) acc) by
    exact haux [] List.chain'_nil
  induction events with
  | nil => intro acc hacc; simpa using hacc
  | cons e t ih =>
    intro acc hacc
    simp only [List.foldl_cons]
    exact ih (fun x hx => h x (List.mem_cons_of_mem _ hx)) _
      (emit_alert_chain _ _ _ hacc (h e (List.mem_cons_self _ _)))

theorem alert_dedup_consecutive_witness :
    List.Chain' dedupSep
      (emit_run
        [(0, ⟨"X", AlertKind.whale_trade, Side.buy, 60000, 1, 0⟩),
         (6, ⟨"X", AlertKind.whale_trade, Side.buy, 60000, 1, 6⟩)]) :=
  alert_dedup_consecutive _ (by decide)

/-- C6 (counterexample): `_generate_suggestions` inspects only the first
(highest-volume) major support; here a major support at distance 5% (< 10%)
exists, but the highest-volume major support sits 15% away, so no reversal
LONG is proposed at all — the claim's "if any major support zone exists
with distance < 10%" is false. -/
theorem reversal_skips_qualifying_support :
    (generate_suggestions
      { signal := Signal.NEUTRAL, confidence := 0, score := 0, mid_price := 100
        support_zones := [⟨90, 200000, ZoneSide.bid, 15, 1, true⟩,
                          ⟨95, 150000, ZoneSide.bid, 5, 1, true⟩]
        resistance_zones := [] }).2 = none ∧
    (⟨95, 150000, ZoneSide.bid, 5, 1, true⟩ : LiquidityZone) ∈
      ({ signal := Signal.NEUTRAL, confidence := 0, score := 0, mid_price := 100
         support_zones := [⟨90, 200000, ZoneSide.bid, 15, 1, true⟩,
                           ⟨95, 150000, ZoneSide.bid, 5, 1, true⟩]
         resistance_zones := [] } : SignalResult).support_zones ∧
    (⟨95, 150000, ZoneSide.bid, 5, 1, true⟩ : LiquidityZone).is_major = true ∧
    (⟨95, 150000, ZoneSide.bid, 5, 1, true⟩ : LiquidityZone).distance_pct < 10 :=
  ⟨by decide, by decide, by decide, by norm_num⟩

/-- C6 (amended): the reversal branch looks only at the *first* (largest
volume) major support and resistance zones.  If the first major support is
within 10% below mid, a LONG is proposed at that zone's price with stop
`price·0.97`, target the first major resistance's price when one exists,
else `mid·(1+dist_pct/100)`, and confidence `min(70, volume/10000)`; this
LONG takes precedence.  Only when the first major support does not qualify
does a qualifying first major resistance produce the symmetric SHORT. -/
theorem reversal_uses_top_volume_major_zone (R : SignalResult)
    (hmid : R.mid_price ≠ 0) :
    (∀ s, (R.support_zones.filter (fun z => z.is_major)).head? = some s →
      s.distance_pct < 10 →
      (generate_suggestions R).2 = some
        { action := SuggestAction.LONG, mode := SuggestMode.reversal
          entry_price := s.price
          target_price :=
            match (R.resistance_zones.filter (fun z => z.is_major)).head? with
            | some r => r.price
            | none => R.mid_price * (1 + s.distance_pct / 100)
          stop_price := s.price * (97/100)
          confidence := min 70 (s.total_volume_usd / 10000) }) ∧
    ((∀ s ∈ (R.support_zones.filter (fun z => z.is_major)).head?,
        ¬ s.distance_pct < 10) →
      ∀ r, (R.resistance_zones.filter (fun z => z.is_major)).head? = some r →
      r.distance_pct < 10 →
      (generate_suggestions R).2 = some
        { action := SuggestAction.SHORT, mode := SuggestMode.reversal
          entry_price := r.price
          target_price :=
            match (R.support_zones.filter (fun z => z.is_major)).head? with
            | some s => s.price
            | none => R.mid_price * (1 - r.distance_pct / 100)
          stop_price := r.price * (103/100)
          confidence := min 70 (r.total_volume_usd / 10000) }) := by
  constructor
  · intro s hs h10
    simp only [generate_suggestions, if_neg hmid, hs, if_pos h10]
  · intro hno r hr h10
    rcases hs : (R.support_zones.filter (fun z => z.is_major)).head? with _ | s
    · simp only [generate_suggestions, if_neg hmid, hs, hr, if_pos h10]
    · have hns := hno s (by rw [hs]; rfl)
      simp only [generate_suggestions, if_neg hmid, hs, hr, if_neg hns, if_pos h10]

theorem reversal_uses_top_volume_major_zone_witness :
    (generate_suggestions
      { signal := Signal.NEUTRAL, confidence := 0, score := 0, mid_price := 100
        support_zones := [⟨95, 300000, ZoneSide.bid, 5, 1, true⟩]
        resistance_zones := [] }).2 = some
      { action := SuggestAction.LONG, mode := SuggestMode.reversal
        entry_price := 95
        target_price := 100 * (1 + 5 / 100)
        stop_price := 95 * (97/100)
        confidence := min 70 (300000 / 10000) } :=
  (reversal_uses_top_volume_major_zone _ (by norm_num)).1
    ⟨95, 300000, ZoneSide.bid, 5, 1, true⟩ (by decide) (by norm_num)

theorem imb_formula_mem (r : ℚ) :
    inRange (if 1 ≤ r then min 100 ((r - 1) * 50) else max (-100) ((r - 1) * 100)) := by
  split
  · next h =>
    exact ⟨le_min (by norm_num) (by nlinarith), min_le_left _ _⟩
  · next h =>
    push_neg at h
    exact ⟨le_max_left _ _, max_le (by norm_num) (by nlinarith)⟩

theorem calc_imbalance_score_mem (bids asks : List OrderBookLevel) :
    inRange (calc_imbalance bids asks).1 := by
  simp only [calc_imbalance]
  exact imb_formula_mem _

theorem calc_wall_score_mem (bids asks : List OrderBookLevel)
    (total_bid total_ask : ℚ) :
    inRange (calc_wall_score bids asks total_bid total_ask).1 := by
  simp only [calc_wall_score]
  exact clamp_mem _

theorem spread_formula_mem (x : ℚ) :
    inRange (if x < 5 then (10 : ℚ) else if 50 < x then -10 else 0) := by
  split_ifs <;> exact ⟨by norm_num, by norm_num⟩

theorem calc_spread_score_mem (bids asks : List OrderBookLevel) :
    inRange (calc_spread_score bids asks).1 := by
  cases bids with
  | nil => exact ⟨by norm_num [calc_spread_score], by norm_num [calc_spread_score]⟩
  | cons b bt =>
    cases asks with
    | nil => exact ⟨by norm_num [calc_spread_score], by norm_num [calc_spread_score]⟩
    | cons a at' =>
      simp only [calc_spread_score, List.head?]
      exact spread_formula_mem _

theorem calc_momentum_mem (history : List ℚ) : inRange (calc_momentum history) := by
  simp only [calc_momentum]
  split_ifs <;> exact ⟨by norm_num, by norm_num⟩

theorem calc_weighted_pressure_mem (wexp : ℚ → ℚ)
    (bids asks : List OrderBookLevel) (mid_price : ℚ)
    (hb : ∀ l ∈ bids, 0 ≤ l.price ∧ 0 ≤ l.quantity)
    (ha : ∀ l ∈ asks, 0 ≤ l.price ∧ 0 ≤ l.quantity)
    (hw : ∀ x, 0 ≤ wexp x) :
    inRange (calc_weighted_pressure wexp bids asks mid_price) := by
  simp only [calc_weighted_pressure]
  split
  · exact ⟨by norm_num, by norm_num⟩
  · next h0 =>
    refine div_mul_100_mem _ _ ?_ ?_ h0
    · refine list_sum_nonneg ?_
      intro x hx
      rcases List.mem_map.mp hx with ⟨b, hbm, rfl⟩
      have hv := hb b (List.mem_of_mem_take hbm)
      exact mul_nonneg (mul_nonneg hv.1 hv.2) (hw _)
    · refine list_sum_nonneg ?_
      intro x hx
      rcases List.mem_map.mp hx with ⟨a, ham, rfl⟩
      have hv := ha a (List.mem_of_mem_take ham)
      exact mul_nonneg (mul_nonneg hv.1 hv.2) (hw _)

theorem calc_flow_score_mem (ts : List (ℚ × Side)) (c : ℚ)
    (h : ∀ t ∈ ts, 0 ≤ t.1) : inRange (calc_flow_score ts c).1 := by
  simp only [calc_flow_score]
  split
  · exact ⟨by norm_num, by norm_num⟩
  · next h0 =>
    refine div_mul_100_mem _ _ ?_ ?_ h0
    · refine list_sum_nonneg ?_
      intro x hx
      rcases List.mem_map.mp hx with ⟨t, htm, rfl⟩
      exact h t (List.mem_of_mem_filter htm)
    · refine list_sum_nonneg ?_
      intro x hx
      rcases List.mem_map.mp hx with ⟨t, htm, rfl⟩
      exact h t (List.mem_of_mem_filter htm)

theorem flow_update_mem (trades : Option (List (ℚ × Side))) (c : ℚ)
    (ht : ∀ ts, trades = some ts → ∀ t ∈ ts, 0 ≤ t.1) :
    inRange (flow_update trades c).1 := by
  rcases trades with _ | ts
  · simp only [flow_update]
    exact ⟨by norm_num, by norm_num⟩
  · simp only [flow_update]
    split
    · exact ⟨by norm_num, by norm_num⟩
    · exact calc_flow_score_mem ts c (ht ts rfl)

theorem score_to_signal_conf_mem (s : ℚ) :
    0 ≤ (score_to_signal s).2 ∧ (score_to_signal s).2 ≤ 100 := by
  have h1 : 0 ≤ min (100 : ℚ) (|s| * 2) := le_min (by norm_num) (by positivity)
  have h2 : min (100 : ℚ) (|s| * 2) ≤ 100 := min_le_left _ _
  simp only [score_to_signal]
  split_ifs <;> exact ⟨h1, h2⟩

theorem weighted_sum_mem (c1 c2 c3 c4 c5 c6 : ℚ)
    (h1 : inRange c1) (h2 : inRange c2) (h3 : inRange c3)
    (h4 : inRange c4) (h5 : inRange c5) (h6 : inRange c6) :
    inRange (c1 * (1/4) + c2 * (1/5) + c3 * (3/20) + c4 * (1/10)
      + c5 * (1/5) + c6 * (1/10)) := by
  obtain ⟨a1, b1⟩ := h1
  obtain ⟨a2, b2⟩ := h2
  obtain ⟨a3, b3⟩ := h3
  obtain ⟨a4, b4⟩ := h4
  obtain ⟨a5, b5⟩ := h5
  obtain ⟨a6, b6⟩ := h6
  exact ⟨by linarith, by linarith⟩

/-- C1 (claim): for every non-empty book with nonnegative prices and
quantities, every engine state and every trade window with nonnegative
values (and any nonnegative weight function standing in for `exp`), the
`SignalResult` of `analyze` has score in `[-100, 100]`, confidence in
`[0, 100]`, and all six component scores in `[-100, 100]`; the final score
is the weighted sum with weights 0.25, 0.20, 0.15, 0.10, 0.20, 0.10, which
sum to 1, so it cannot leave the range when the components are inside it. -/
theorem analyze_scores_bounded
    (st : EngineState) (wexp : ℚ → ℚ) (bids asks : List OrderBookLevel)
    (trades : Option (List (ℚ × Side)))
    (hb : bids ≠ []) (ha : asks ≠ [])
    (hbl : ∀ l ∈ bids, 0 ≤ l.price ∧ 0 ≤ l.quantity)
    (hal : ∀ l ∈ asks, 0 ≤ l.price ∧ 0 ≤ l.quantity)
    (ht : ∀ ts, trades = some ts → ∀ t ∈ ts, 0 ≤ t.1)
    (hw : ∀ x, 0 ≤ wexp x) :
    inRange (analyze st wexp bids asks trades).1.score ∧
    0 ≤ (analyze st wexp bids asks trades).1.confidence ∧
    (analyze st wexp bids asks trades).1.confidence ≤ 100 ∧
    inRange (analyze st wexp bids asks trades).1.imbalance_score ∧
    inRange (analyze st wexp bids asks trades).1.weighted_pressure_score ∧
    inRange (analyze st wexp bids asks trades).1.wall_score ∧
    inRange (analyze st wexp bids asks trades).1.spread_score ∧
    inRange (analyze st wexp bids asks trades).1.flow_score ∧
    inRange (analyze st wexp bids asks trades).1.momentum_score := by
  obtain ⟨b0, bt, rfl⟩ := List.exists_cons_of_ne_nil hb
  obtain ⟨a0, at', rfl⟩ := List.exists_cons_of_ne_nil ha
  simp only [analyze]
  refine ⟨?_, ?_, ?_, ?_, ?_, ?_, ?_, ?_, ?_⟩
  · exact weighted_sum_mem _ _ _ _ _ _
      (calc_imbalance_score_mem _ _)
      (calc_weighted_pressure_mem wexp _ _ _ hbl hal hw)
      (calc_wall_score_mem _ _ _ _)
      (calc_spread_score_mem _ _)
      (flow_update_mem trades _ ht)
      (calc_momentum_mem _)
  · exact (score_to_signal_conf_mem _).1
  · exact (score_to_signal_conf_mem _).2
  · exact calc_imbalance_score_mem _ _
  · exact calc_weighted_pressure_mem wexp _ _ _ hbl hal hw
  · exact calc_wall_score_mem _ _ _ _
  · exact calc_spread_score_mem _ _
  · exact flow_update_mem trades _ ht
  · exact calc_momentum_mem _


theorem analyze_scores_bounded_witness :
    inRange (analyze ⟨[], 0⟩ (fun _ => 1) [⟨100, 5⟩] [⟨101, 5⟩] none).1.score ∧
    0 ≤ (analyze ⟨[], 0⟩ (fun _ => 1) [⟨100, 5⟩] [⟨101, 5⟩] none).1.confidence ∧
    (analyze ⟨[], 0⟩ (fun _ => 1) [⟨100, 5⟩] [⟨101, 5⟩] none).1.confidence ≤ 100 ∧
    inRange (analyze ⟨[], 0⟩ (fun _ => 1) [⟨100, 5⟩] [⟨101, 5⟩] none).1.imbalance_score ∧
    inRange (analyze ⟨[], 0⟩ (fun _ => 1) [⟨100, 5⟩] [⟨101, 5⟩] none).1.weighted_pressure_score ∧
    inRange (analyze ⟨[], 0⟩ (fun _ => 1) [⟨100, 5⟩] [⟨101, 5⟩] none).1.wall_score ∧
    inRange (analyze ⟨[], 0⟩ (fun _ => 1) [⟨100, 5⟩] [⟨101, 5⟩] none).1.spread_score ∧
    inRange (analyze ⟨[], 0⟩ (fun _ => 1) [⟨100, 5⟩] [⟨101, 5⟩] none).1.flow_score ∧
    inRange (analyze ⟨[], 0⟩ (fun _ => 1) [⟨100, 5⟩] [⟨101, 5⟩] none).1.momentum_score :=
  analyze_scores_bounded ⟨[], 0⟩ (fun _ => 1) [⟨100, 5⟩] [⟨101, 5⟩] none
    (by simp) (by simp)
    (by intro l hl; rcases List.mem_singleton.mp hl with rfl
        exact ⟨by norm_num, by norm_num⟩)
    (by intro l hl; rcases List.mem_singleton.mp hl with rfl
        exact ⟨by norm_num, by norm_num⟩)
    (by rintro ts ⟨⟩)
    (fun x => by norm_num)
